import Mathlib

/-!
Verification of the transaction-lifecycle engine of the
`postgres-unit-of-work` library (`src/executor.rs`,
`src/transaction_aware.rs`, `src/unit_of_work.rs`).

Shallow embedding choices:
* A live transaction handle (`sqlx::Transaction`) is identified by a `Nat`.
* `sqlx::Error` is modelled by the variants the library actually produces
  or matches on: `poolClosed` (used by `Executor::take_transaction` as the
  "transaction unavailable" error) and `database msg` (any error surfaced
  by the database layer).
* The behaviour of the external database on `tx.commit()` / `tx.rollback()`
  is an oracle (`DB`), and the behaviour of each registered observer's
  `on_commit()` / `on_rollback()` is recorded in the `Observer` value
  itself, so that the pure model can replay any execution.
* `commit` / `rollback` return, besides their `TransactionResult<()>`,
  the list of side-effecting steps they perform in order (an event trace)
  and the final contents of the executor slot.
* The shared `Arc<Mutex<Option<Transaction>>>` slot of `Executor` is
  modelled by an address into a heap of slots; `Clone` copies the address
  (the `Arc` pointer), not the slot contents.
-/

/-- The modelled fragment of `sqlx::Error`. `poolClosed` is
`sqlx::Error::PoolClosed`, the error `Executor::take_transaction` returns
when the slot is empty; `database msg` stands for any other error the
database layer surfaces (e.g. `sqlx::Error::Database`). -/
inductive SqlxError where
  | poolClosed : SqlxError
  | database (msg : String) : SqlxError
deriving DecidableEq, Repr

/-- `TransactionError` from `src/transaction_aware.rs`. The
`DatabaseError` variant carries a `sqlx::Error` via `#[from]`, which is
how every `?` on a `sqlx`-returning call converts its error. -/
inductive TransactionError where
  | CommitFailed (msg : String) : TransactionError
  | RollbackFailed (msg : String) : TransactionError
  | DatabaseError (e : SqlxError) : TransactionError
deriving DecidableEq, Repr

/-- `TransactionResult<T>` from `src/transaction_aware.rs`. -/
abbrev TransactionResult (α : Type) := Except TransactionError α

/-- A registered `TransactionAware` observer: its identity plus the
result each of its callbacks would return if invoked. -/
structure Observer where
  id : Nat
  commitResult : TransactionResult Unit
  rollbackResult : TransactionResult Unit

/-- The database oracle: what the underlying `tx.commit()` /
`tx.rollback()` calls return for a given transaction handle. -/
structure DB where
  commitTx : Nat → Except SqlxError Unit
  rollbackTx : Nat → Except SqlxError Unit

/-- One observable step performed by a finalize path. -/
inductive Event where
  | takeTx (tx : Nat) : Event
  | dbCommit (tx : Nat) : Event
  | dbRollback (tx : Nat) : Event
  | obsCommit (id : Nat) : Event
  | obsRollback (id : Nat) : Event
deriving DecidableEq, Repr

/-- `Option::take` combined with the `ok_or(sqlx::Error::PoolClosed)` of
`Executor::take_transaction` (src/executor.rs, line 25): returns the held
transaction and leaves the slot empty; on an empty slot it fails with
`PoolClosed` and the slot stays empty. -/
def takeSlot : Option Nat → Except SqlxError Nat × Option Nat
  | some tx => (Except.ok tx, none)
  | none => (Except.error SqlxError.poolClosed, none)

/-- The observer-notification loop of `commit` (src/unit_of_work.rs,
lines 96-99): invoke `on_commit` on each observer of the snapshot in
order; a failing call stops the loop and its error is returned. Each
invocation is recorded as an `obsCommit` event. -/
def notifyCommit : List Observer → List Event × TransactionResult Unit
  | [] => ([], Except.ok ())
  | o :: rest =>
    match o.commitResult with
    | Except.ok _ =>
      let (evs, r) := notifyCommit rest
      (Event.obsCommit o.id :: evs, r)
    | Except.error e => ([Event.obsCommit o.id], Except.error e)

/-- The observer-notification loop of `rollback` (src/unit_of_work.rs,
lines 111-114), invoking `on_rollback` instead. -/
def notifyRollback : List Observer → List Event × TransactionResult Unit
  | [] => ([], Except.ok ())
  | o :: rest =>
    match o.rollbackResult with
    | Except.ok _ =>
      let (evs, r) := notifyRollback rest
      (Event.obsRollback o.id :: evs, r)
    | Except.error e => ([Event.obsRollback o.id], Except.error e)

/-- A `PostgresUnitOfWorkSession`: the contents of its executor's shared
slot, and its observer registry in registration order. -/
structure Session where
  slot : Option Nat
  observers : List Observer

/-- `register_transaction_aware` (src/unit_of_work.rs, line 85):
appends the observer to the registry. -/
def Session.register_transaction_aware (s : Session) (o : Observer) : Session :=
  { s with observers := s.observers ++ [o] }

/-- `PostgresUnitOfWorkSession::commit` (src/unit_of_work.rs, lines
88-101): (1) take the transaction from the executor (`?` converts a
failure into `DatabaseError`); (2) issue the underlying commit (`?`
likewise); (3) on success, snapshot the registry (`.read().clone()`) and
run the notification loop. Returns the event trace, the
`TransactionResult<()>`, and the final slot contents. -/
def Session.commit (db : DB) (s : Session) :
    List Event × TransactionResult Unit × Option Nat :=
  match takeSlot s.slot with
  | (Except.error e, slot') => ([], Except.error (TransactionError.DatabaseError e), slot')
  | (Except.ok tx, slot') =>
    match db.commitTx tx with
    | Except.error e =>
      ([Event.takeTx tx, Event.dbCommit tx],
        Except.error (TransactionError.DatabaseError e), slot')
    | Except.ok _ =>
      let observers := s.observers
      let (evs, r) := notifyCommit observers
      (Event.takeTx tx :: Event.dbCommit tx :: evs, r, slot')

/-- `PostgresUnitOfWorkSession::rollback` (src/unit_of_work.rs, lines
103-116): symmetric to `commit`, issuing the underlying rollback and
invoking `on_rollback`. -/
def Session.rollback (db : DB) (s : Session) :
    List Event × TransactionResult Unit × Option Nat :=
  match takeSlot s.slot with
  | (Except.error e, slot') => ([], Except.error (TransactionError.DatabaseError e), slot')
  | (Except.ok tx, slot') =>
    match db.rollbackTx tx with
    | Except.error e =>
      ([Event.takeTx tx, Event.dbRollback tx],
        Except.error (TransactionError.DatabaseError e), slot')
    | Except.ok _ =>
      let observers := s.observers
      let (evs, r) := notifyRollback observers
      (Event.takeTx tx :: Event.dbRollback tx :: evs, r, slot')

/-- A heap of executor slots: address `a` holds the contents of the
`Arc<Mutex<Option<Transaction>>>` allocated at `a`; unallocated
addresses read as empty. -/
abbrev ExecHeap := List (Option Nat)

/-- An `Executor` (src/executor.rs, lines 9-12): a reference-counted
handle, i.e. the address of its shared slot. -/
structure Executor where
  addr : Nat
deriving DecidableEq, Repr

/-- `#[derive(Clone)]` on `Executor`: cloning copies the `Arc` pointer,
so the clone designates the same shared slot. -/
def Executor.clone (e : Executor) : Executor := e

/-- `Executor::new` (src/executor.rs, lines 16-20): allocates a fresh
shared slot holding the given transaction. Never fails. -/
def Executor.new (tx : Nat) (h : ExecHeap) : Executor × ExecHeap :=
  (⟨h.length⟩, h ++ [some tx])

/-- `Executor::take_transaction` (src/executor.rs, lines 24-26) against
the heap: `self.tx.lock().await.take().ok_or(sqlx::Error::PoolClosed)`. -/
def Executor.take_transaction (e : Executor) (h : ExecHeap) :
    Except SqlxError Nat × ExecHeap :=
  ((takeSlot (h.getD e.addr none)).1, h.set e.addr none)

/-- The heap operations available through the public surface: allocating
a fresh executor and taking through some handle. -/
inductive ExecOp where
  | newExec (tx : Nat) : ExecOp
  | takeExec (e : Executor) : ExecOp

/-- Effect of one operation on the heap. -/
def applyOp (h : ExecHeap) : ExecOp → ExecHeap
  | ExecOp.newExec tx => (Executor.new tx h).2
  | ExecOp.takeExec e => (e.take_transaction h).2

/-- Effect of a sequence of operations on the heap. -/
def applyOps (ops : List ExecOp) (h : ExecHeap) : ExecHeap :=
  ops.foldl applyOp h

/-- Test predicate: is this error the `CommitFailed` variant? -/
def TransactionError.isCommitFailed : TransactionError → Bool
  | TransactionError.CommitFailed _ => true
  | _ => false

/-- Test predicate: is this error the `RollbackFailed` variant? -/
def TransactionError.isRollbackFailed : TransactionError → Bool
  | TransactionError.RollbackFailed _ => true
  | _ => false

/-! ### Unfolding equations for the finalize paths -/

theorem commit_slot_none (db : DB) (s : Session) (hs : s.slot = none) :
    Session.commit db s =
      ([], Except.error (TransactionError.DatabaseError SqlxError.poolClosed), none) := by
  simp [Session.commit, hs, takeSlot]

theorem commit_db_fail (db : DB) (s : Session) (tx : Nat) (e : SqlxError)
    (hs : s.slot = some tx) (hdb : db.commitTx tx = Except.error e) :
    Session.commit db s =
      ([Event.takeTx tx, Event.dbCommit tx],
        Except.error (TransactionError.DatabaseError e), none) := by
  simp [Session.commit, hs, takeSlot, hdb]

theorem commit_db_ok (db : DB) (s : Session) (tx : Nat)
    (hs : s.slot = some tx) (hdb : db.commitTx tx = Except.ok ()) :
    Session.commit db s =
      (Event.takeTx tx :: Event.dbCommit tx :: (notifyCommit s.observers).1,
        (notifyCommit s.observers).2, none) := by
  simp [Session.commit, hs, takeSlot, hdb]

theorem rollback_slot_none (db : DB) (s : Session) (hs : s.slot = none) :
    Session.rollback db s =
      ([], Except.error (TransactionError.DatabaseError SqlxError.poolClosed), none) := by
  simp [Session.rollback, hs, takeSlot]

theorem rollback_db_fail (db : DB) (s : Session) (tx : Nat) (e : SqlxError)
    (hs : s.slot = some tx) (hdb : db.rollbackTx tx = Except.error e) :
    Session.rollback db s =
      ([Event.takeTx tx, Event.dbRollback tx],
        Except.error (TransactionError.DatabaseError e), none) := by
  simp [Session.rollback, hs, takeSlot, hdb]

theorem rollback_db_ok (db : DB) (s : Session) (tx : Nat)
    (hs : s.slot = some tx) (hdb : db.rollbackTx tx = Except.ok ()) :
    Session.rollback db s =
      (Event.takeTx tx :: Event.dbRollback tx :: (notifyRollback s.observers).1,
        (notifyRollback s.observers).2, none) := by
  simp [Session.rollback, hs, takeSlot, hdb]

/-! ### The notification loops -/

theorem notifyCommit_all_ok (l : List Observer)
    (h : ∀ o ∈ l, o.commitResult = Except.ok ()) :
    notifyCommit l = (l.map fun o => Event.obsCommit o.id, Except.ok ()) := by
  induction l with
  | nil => rfl
  | cons o rest ih =>
    have ho := h o (List.mem_cons_self o rest)
    have hrest := ih fun x hx => h x (List.mem_cons_of_mem o hx)
    simp [notifyCommit, ho, hrest]

theorem notifyCommit_ok_trace (l : List Observer)
    (h : (notifyCommit l).2 = Except.ok ()) :
    (notifyCommit l).1 = l.map fun o => Event.obsCommit o.id := by
  induction l with
  | nil => rfl
  | cons o rest ih =>
    cases ho : o.commitResult with
    | error e => simp [notifyCommit, ho] at h
    | ok u =>
      cases u
      simp [notifyCommit, ho] at h ⊢
      exact ih h

theorem notifyCommit_first_fail (pre post : List Observer) (bad : Observer)
    (err : TransactionError)
    (hpre : ∀ o ∈ pre, o.commitResult = Except.ok ())
    (hbad : bad.commitResult = Except.error err) :
    notifyCommit (pre ++ bad :: post) =
      ((pre.map fun o => Event.obsCommit o.id) ++ [Event.obsCommit bad.id],
        Except.error err) := by
  induction pre with
  | nil => simp [notifyCommit, hbad]
  | cons o rest ih =>
    have ho := hpre o (List.mem_cons_self o rest)
    have hrest := ih fun x hx => hpre x (List.mem_cons_of_mem o hx)
    simp [notifyCommit, ho, hrest]

theorem notifyRollback_all_ok (l : List Observer)
    (h : ∀ o ∈ l, o.rollbackResult = Except.ok ()) :
    notifyRollback l = (l.map fun o => Event.obsRollback o.id, Except.ok ()) := by
  induction l with
  | nil => rfl
  | cons o rest ih =>
    have ho := h o (List.mem_cons_self o rest)
    have hrest := ih fun x hx => h x (List.mem_cons_of_mem o hx)
    simp [notifyRollback, ho, hrest]

theorem notifyRollback_first_fail (pre post : List Observer) (bad : Observer)
    (err : TransactionError)
    (hpre : ∀ o ∈ pre, o.rollbackResult = Except.ok ())
    (hbad : bad.rollbackResult = Except.error err) :
    notifyRollback (pre ++ bad :: post) =
      ((pre.map fun o => Event.obsRollback o.id) ++ [Event.obsRollback bad.id],
        Except.error err) := by
  induction pre with
  | nil => simp [notifyRollback, hbad]
  | cons o rest ih =>
    have ho := hpre o (List.mem_cons_self o rest)
    have hrest := ih fun x hx => hpre x (List.mem_cons_of_mem o hx)
    simp [notifyRollback, ho, hrest]

/-! ### Claims about the commit path -/

/-- C1: for every session on which `commit()` succeeds, `commit()`
performs exactly these steps in this order: (1) take the transaction out
of the executor, (2) issue the underlying database commit, (3) invoke
`on_commit()` on each snapshotted observer strictly in registration
order, then return `Ok`. -/
theorem commit_success_steps_in_order (db : DB) (s : Session) (tx : Nat)
    (hs : s.slot = some tx)
    (hok : (Session.commit db s).2.1 = Except.ok ()) :
    (Session.commit db s).1 =
      Event.takeTx tx :: Event.dbCommit tx ::
        (s.observers.map fun o => Event.obsCommit o.id) := by
  cases hdb : db.commitTx tx with
  | error e =>
    rw [commit_db_fail db s tx e hs hdb] at hok
    simp at hok
  | ok u =>
    cases u
    rw [commit_db_ok db s tx hs hdb] at hok ⊢
    simp at hok ⊢
    exact notifyCommit_ok_trace _ hok

/-- Witness for C1 at a concrete session with two observers. -/
theorem commit_success_steps_in_order_witness :
    (Session.commit ⟨fun _ => Except.ok (), fun _ => Except.ok ()⟩
        ⟨some 3, [⟨7, Except.ok (), Except.ok ()⟩, ⟨8, Except.ok (), Except.ok ()⟩]⟩).1
      = [Event.takeTx 3, Event.dbCommit 3, Event.obsCommit 7, Event.obsCommit 8] :=
  commit_success_steps_in_order _ _ 3 rfl rfl

/-- C2: for every committed session whose observer callbacks all
succeed, each registry entry receives exactly one `on_commit` call, the
calls occur in registration order, no `on_rollback` call is made, and an
observer registered k times receives k `on_commit` calls. -/
theorem commit_notifies_each_registration_once (db : DB) (s : Session) (tx : Nat)
    (hs : s.slot = some tx) (hdb : db.commitTx tx = Except.ok ())
    (hobs : ∀ o ∈ s.observers, o.commitResult = Except.ok ()) :
    (Session.commit db s).2.1 = Except.ok () ∧
    (Session.commit db s).1 =
      Event.takeTx tx :: Event.dbCommit tx ::
        (s.observers.map fun o => Event.obsCommit o.id) ∧
    (∀ i, (Session.commit db s).1.count (Event.obsCommit i) =
      (s.observers.map Observer.id).count i) ∧
    (∀ i, Event.obsRollback i ∉ (Session.commit db s).1) := by
  have hn := notifyCommit_all_ok s.observers hobs
  rw [commit_db_ok db s tx hs hdb, hn]
  refine ⟨rfl, rfl, ?_, ?_⟩
  · intro i
    have hinj : Function.Injective Event.obsCommit := by
      intro a b hab
      cases hab
      rfl
    have hcnt := List.count_map_of_injective (s.observers.map Observer.id)
      Event.obsCommit hinj i
    simp only [List.map_map] at hcnt
    simp only [List.count_cons]
    simp
    exact hcnt
  · intro i
    simp [List.mem_map]

/-- Witness for C2: an observer registered twice (id 7) is notified
twice, in order, with no rollback callbacks. -/
theorem commit_notifies_each_registration_once_witness :
    (Session.commit ⟨fun _ => Except.ok (), fun _ => Except.ok ()⟩
        ⟨some 3, [⟨7, Except.ok (), Except.ok ()⟩, ⟨7, Except.ok (), Except.ok ()⟩]⟩).2.1
      = Except.ok () ∧
    (Session.commit ⟨fun _ => Except.ok (), fun _ => Except.ok ()⟩
        ⟨some 3, [⟨7, Except.ok (), Except.ok ()⟩, ⟨7, Except.ok (), Except.ok ()⟩]⟩).1.count
        (Event.obsCommit 7) = 2 := by
  have h := commit_notifies_each_registration_once
    ⟨fun _ => Except.ok (), fun _ => Except.ok ()⟩
    ⟨some 3, [⟨7, Except.ok (), Except.ok ()⟩, ⟨7, Except.ok (), Except.ok ()⟩]⟩ 3
    rfl rfl (by intro o ho; fin_cases ho <;> rfl)
  exact ⟨h.1, by rw [h.2.2.1 7]; rfl⟩

/-- C4: if the underlying database commit fails, `commit()` returns that
error (wrapped as `DatabaseError`) and no registered observer receives
any callback. -/
theorem commit_db_fail_no_observer_callbacks (db : DB) (s : Session) (tx : Nat)
    (e : SqlxError) (hs : s.slot = some tx)
    (hdb : db.commitTx tx = Except.error e) :
    (Session.commit db s).2.1 =
      Except.error (TransactionError.DatabaseError e) ∧
    (∀ i, Event.obsCommit i ∉ (Session.commit db s).1) ∧
    (∀ i, Event.obsRollback i ∉ (Session.commit db s).1) := by
  rw [commit_db_fail db s tx e hs hdb]
  refine ⟨rfl, ?_, ?_⟩ <;> intro i <;> simp

/-- Witness for C4: a database that rejects the commit; the registered
observer gets no callback. -/
theorem commit_db_fail_no_observer_callbacks_witness :
    (Session.commit ⟨fun _ => Except.error (SqlxError.database "boom"), fun _ => Except.ok ()⟩
        ⟨some 3, [⟨7, Except.ok (), Except.ok ()⟩]⟩).2.1
      = Except.error (TransactionError.DatabaseError (SqlxError.database "boom")) ∧
    Event.obsCommit 7 ∉
      (Session.commit ⟨fun _ => Except.error (SqlxError.database "boom"), fun _ => Except.ok ()⟩
        ⟨some 3, [⟨7, Except.ok (), Except.ok ()⟩]⟩).1 := by
  have h := commit_db_fail_no_observer_callbacks
    ⟨fun _ => Except.error (SqlxError.database "boom"), fun _ => Except.ok ()⟩
    ⟨some 3, [⟨7, Except.ok (), Except.ok ()⟩]⟩ 3 (SqlxError.database "boom") rfl rfl
  exact ⟨h.1, h.2.1 7⟩

/-- C6: `rollback()` is symmetric to `commit()`: for every rolled-back
session whose callbacks succeed, every registered observer receives
exactly one `on_rollback` call, in registration order, and zero
`on_commit` calls. -/
theorem rollback_notifies_each_registration_once (db : DB) (s : Session) (tx : Nat)
    (hs : s.slot = some tx) (hdb : db.rollbackTx tx = Except.ok ())
    (hobs : ∀ o ∈ s.observers, o.rollbackResult = Except.ok ()) :
    (Session.rollback db s).2.1 = Except.ok () ∧
    (Session.rollback db s).1 =
      Event.takeTx tx :: Event.dbRollback tx ::
        (s.observers.map fun o => Event.obsRollback o.id) ∧
    (∀ i, (Session.rollback db s).1.count (Event.obsRollback i) =
      (s.observers.map Observer.id).count i) ∧
    (∀ i, Event.obsCommit i ∉ (Session.rollback db s).1) := by
  have hn := notifyRollback_all_ok s.observers hobs
  rw [rollback_db_ok db s tx hs hdb, hn]
  refine ⟨rfl, rfl, ?_, ?_⟩
  · intro i
    have hinj : Function.Injective Event.obsRollback := by
      intro a b hab
      cases hab
      rfl
    have hcnt := List.count_map_of_injective (s.observers.map Observer.id)
      Event.obsRollback hinj i
    simp only [List.map_map] at hcnt
    simp only [List.count_cons]
    simp
    exact hcnt
  · intro i
    simp [List.mem_map]

/-- Witness for C6 at a concrete session with two observers. -/
theorem rollback_notifies_each_registration_once_witness :
    (Session.rollback ⟨fun _ => Except.ok (), fun _ => Except.ok ()⟩
        ⟨some 3, [⟨7, Except.ok (), Except.ok ()⟩, ⟨8, Except.ok (), Except.ok ()⟩]⟩).2.1
      = Except.ok () ∧
    (Session.rollback ⟨fun _ => Except.ok (), fun _ => Except.ok ()⟩
        ⟨some 3, [⟨7, Except.ok (), Except.ok ()⟩, ⟨8, Except.ok (), Except.ok ()⟩]⟩).1
      = [Event.takeTx 3, Event.dbRollback 3, Event.obsRollback 7, Event.obsRollback 8] := by
  have h := rollback_notifies_each_registration_once
    ⟨fun _ => Except.ok (), fun _ => Except.ok ()⟩
    ⟨some 3, [⟨7, Except.ok (), Except.ok ()⟩, ⟨8, Except.ok (), Except.ok ()⟩]⟩ 3
    rfl rfl (by intro o ho; fin_cases ho <;> rfl)
  exact ⟨h.1, h.2.1⟩

/-- C5: for every finalize (commit or rollback) in which some observer
callback fails, the first failing observer's error is returned and no
observer later in registration order is invoked during that finalize,
even though the underlying commit/rollback already took effect. -/
theorem finalize_first_observer_failure_stops_notification :
    (∀ (db : DB) (s : Session) (tx : Nat) (pre post : List Observer)
        (bad : Observer) (err : TransactionError),
      s.slot = some tx → db.commitTx tx = Except.ok () →
      s.observers = pre ++ bad :: post →
      (∀ o ∈ pre, o.commitResult = Except.ok ()) →
      bad.commitResult = Except.error err →
      (Session.commit db s).2.1 = Except.error err ∧
      (Session.commit db s).1 =
        Event.takeTx tx :: Event.dbCommit tx ::
          ((pre.map fun o => Event.obsCommit o.id) ++ [Event.obsCommit bad.id])) ∧
    (∀ (db : DB) (s : Session) (tx : Nat) (pre post : List Observer)
        (bad : Observer) (err : TransactionError),
      s.slot = some tx → db.rollbackTx tx = Except.ok () →
      s.observers = pre ++ bad :: post →
      (∀ o ∈ pre, o.rollbackResult = Except.ok ()) →
      bad.rollbackResult = Except.error err →
      (Session.rollback db s).2.1 = Except.error err ∧
      (Session.rollback db s).1 =
        Event.takeTx tx :: Event.dbRollback tx ::
          ((pre.map fun o => Event.obsRollback o.id) ++ [Event.obsRollback bad.id])) := by
  constructor
  · intro db s tx pre post bad err hs hdb hsplit hpre hbad
    rw [commit_db_ok db s tx hs hdb, hsplit,
      notifyCommit_first_fail pre post bad err hpre hbad]
    exact ⟨rfl, rfl⟩
  · intro db s tx pre post bad err hs hdb hsplit hpre hbad
    rw [rollback_db_ok db s tx hs hdb, hsplit,
      notifyRollback_first_fail pre post bad err hpre hbad]
    exact ⟨rfl, rfl⟩

/-- Witness for C5: observer 6 fails during commit, so observer 9 is
never invoked; symmetric check on the rollback side. -/
theorem finalize_first_observer_failure_stops_notification_witness :
    ((Session.commit ⟨fun _ => Except.ok (), fun _ => Except.ok ()⟩
        ⟨some 1, [⟨5, Except.ok (), Except.ok ()⟩,
          ⟨6, Except.error (TransactionError.DatabaseError (SqlxError.database "cb")),
            Except.ok ()⟩,
          ⟨9, Except.ok (), Except.ok ()⟩]⟩).1
      = [Event.takeTx 1, Event.dbCommit 1, Event.obsCommit 5, Event.obsCommit 6]) ∧
    ((Session.rollback ⟨fun _ => Except.ok (), fun _ => Except.ok ()⟩
        ⟨some 1, [⟨5, Except.ok (),
          Except.error (TransactionError.DatabaseError (SqlxError.database "rb"))⟩,
          ⟨9, Except.ok (), Except.ok ()⟩]⟩).1
      = [Event.takeTx 1, Event.dbRollback 1, Event.obsRollback 5]) := by
  constructor
  · exact (finalize_first_observer_failure_stops_notification.1
      ⟨fun _ => Except.ok (), fun _ => Except.ok ()⟩
      ⟨some 1, [⟨5, Except.ok (), Except.ok ()⟩,
        ⟨6, Except.error (TransactionError.DatabaseError (SqlxError.database "cb")),
          Except.ok ()⟩,
        ⟨9, Except.ok (), Except.ok ()⟩]⟩ 1
      [⟨5, Except.ok (), Except.ok ()⟩]
      [⟨9, Except.ok (), Except.ok ()⟩]
      ⟨6, Except.error (TransactionError.DatabaseError (SqlxError.database "cb")),
        Except.ok ()⟩
      (TransactionError.DatabaseError (SqlxError.database "cb"))
      rfl rfl rfl (by intro o ho; fin_cases ho; rfl) rfl).2
  · exact (finalize_first_observer_failure_stops_notification.2
      ⟨fun _ => Except.ok (), fun _ => Except.ok ()⟩
      ⟨some 1, [⟨5, Except.ok (),
        Except.error (TransactionError.DatabaseError (SqlxError.database "rb"))⟩,
        ⟨9, Except.ok (), Except.ok ()⟩]⟩ 1
      []
      [⟨9, Except.ok (), Except.ok ()⟩]
      ⟨5, Except.ok (),
        Except.error (TransactionError.DatabaseError (SqlxError.database "rb"))⟩
      (TransactionError.DatabaseError (SqlxError.database "rb"))
      rfl rfl rfl (by intro o ho; fin_cases ho) rfl).2

/-! ### Heap lemmas for the shared executor slot -/

theorem getD_set_self (h : ExecHeap) (a : Nat) :
    (h.set a none).getD a none = none := by
  induction h generalizing a with
  | nil => rfl
  | cons x xs ih =>
    cases a with
    | zero => rfl
    | succ n => exact ih n

theorem getD_set_ne (h : ExecHeap) (a b : Nat) (v : Option Nat) (hab : a ≠ b) :
    (h.set b v).getD a none = h.getD a none := by
  induction h generalizing a b with
  | nil => rfl
  | cons x xs ih =>
    cases b with
    | zero =>
      cases a with
      | zero => exact absurd rfl hab
      | succ n => rfl
    | succ m =>
      cases a with
      | zero => rfl
      | succ n => exact ih n m (fun hh => hab (by rw [hh]))

theorem getD_append_left (h t : ExecHeap) (a : Nat) (ha : a < h.length) :
    (h ++ t).getD a none = h.getD a none := by
  induction h generalizing a with
  | nil => exact absurd ha (Nat.not_lt_zero a)
  | cons x xs ih =>
    cases a with
    | zero => rfl
    | succ n => exact ih n (Nat.lt_of_succ_lt_succ ha)

theorem getD_append_length (h : ExecHeap) (v : Option Nat) :
    (h ++ [v]).getD h.length none = v := by
  induction h with
  | nil => rfl
  | cons x xs ih => exact ih

/-- C3: the executor's take succeeds at most once — a take on an empty
slot (already taken) returns the `PoolClosed` ("transaction
unavailable") error, after any take the slot is empty, and no sequence
of public operations ever repopulates an emptied allocated slot. -/
theorem executor_take_at_most_once (e : Executor) (h : ExecHeap) :
    (h.getD e.addr none = none →
      (e.take_transaction h).1 = Except.error SqlxError.poolClosed) ∧
    ((e.take_transaction h).2.getD e.addr none = none) ∧
    (∀ ops : List ExecOp, e.addr < h.length → h.getD e.addr none = none →
      (applyOps ops h).getD e.addr none = none) := by
  refine ⟨?_, ?_, ?_⟩
  · intro hnone
    show (takeSlot (h.getD e.addr none)).1 = Except.error SqlxError.poolClosed
    rw [hnone]
    rfl
  · exact getD_set_self h e.addr
  · intro ops
    induction ops generalizing h with
    | nil => intro _ hnone; exact hnone
    | cons op rest ih =>
      intro hlt hnone
      show (applyOps rest (applyOp h op)).getD e.addr none = none
      cases op with
      | newExec tx =>
        apply ih
        · show e.addr < (h ++ [some tx]).length
          simp only [List.length_append, List.length_cons, List.length_nil]
          omega
        · show (h ++ [some tx]).getD e.addr none = none
          rw [getD_append_left h [some tx] e.addr hlt]
          exact hnone
      | takeExec e2 =>
        apply ih
        · show e.addr < (h.set e2.addr none).length
          simpa using hlt
        · show (h.set e2.addr none).getD e.addr none = none
          by_cases heq : e.addr = e2.addr
          · rw [heq]
            exact getD_set_self h e2.addr
          · rw [getD_set_ne h e.addr e2.addr none heq]
            exact hnone

/-- Witness for C3: a freshly taken slot rejects a second take, and
stays empty under further allocations and takes. -/
theorem executor_take_at_most_once_witness :
    ((Executor.take_transaction ⟨0⟩ [none]).1 = Except.error SqlxError.poolClosed) ∧
    ((Executor.take_transaction ⟨0⟩ [some 4]).2.getD 0 none = none) ∧
    ((applyOps [ExecOp.newExec 9, ExecOp.takeExec ⟨1⟩] [none]).getD 0 none = none) := by
  have h := executor_take_at_most_once ⟨0⟩ [none]
  have h2 := executor_take_at_most_once ⟨0⟩ [some 4]
  exact ⟨h.1 rfl, h2.2.1,
    h.2.2 [ExecOp.newExec 9, ExecOp.takeExec ⟨1⟩] (by decide) rfl⟩

/-- C9: a clone of an `Executor` shares identity with the original: a
successful take through the clone empties the slot seen through the
original (the next take through it fails), and conversely. -/
theorem executor_clone_shares_identity (e : Executor) (h : ExecHeap) (tx : Nat) :
    ((e.clone.take_transaction h).1 = Except.ok tx →
      (e.take_transaction (e.clone.take_transaction h).2).1
        = Except.error SqlxError.poolClosed) ∧
    ((e.take_transaction h).1 = Except.ok tx →
      (e.clone.take_transaction (e.take_transaction h).2).1
        = Except.error SqlxError.poolClosed) := by
  constructor
  · intro _
    show (takeSlot ((h.set e.addr none).getD e.addr none)).1
      = Except.error SqlxError.poolClosed
    rw [getD_set_self h e.addr]
    rfl
  · intro _
    show (takeSlot ((h.set e.addr none).getD e.addr none)).1
      = Except.error SqlxError.poolClosed
    rw [getD_set_self h e.addr]
    rfl

/-- Witness for C9: on a one-slot heap, taking through the clone
succeeds and the subsequent take through the original fails, and
conversely. -/
theorem executor_clone_shares_identity_witness :
    ((Executor.clone ⟨0⟩).take_transaction [some 4]).1 = Except.ok 4 ∧
    (Executor.take_transaction ⟨0⟩
        ((Executor.clone ⟨0⟩).take_transaction [some 4]).2).1
      = Except.error SqlxError.poolClosed ∧
    ((Executor.clone ⟨0⟩).take_transaction
        (Executor.take_transaction ⟨0⟩ [some 4]).2).1
      = Except.error SqlxError.poolClosed := by
  have h := executor_clone_shares_identity ⟨0⟩ [some 4] 4
  exact ⟨rfl, h.1 rfl, h.2 rfl⟩

/-- C10: `Executor::new` never fails and populates the slot, the first
take on the fresh executor returns exactly the stored transaction, and a
take fails (with `PoolClosed`) exactly when the slot is empty — so the
only cause of take failure is a prior successful take on the shared
slot. -/
theorem executor_new_populates_and_first_take (tx : Nat) (h : ExecHeap) :
    ((Executor.new tx h).2.getD (Executor.new tx h).1.addr none = some tx) ∧
    (((Executor.new tx h).1.take_transaction (Executor.new tx h).2).1
      = Except.ok tx) ∧
    (∀ (e2 : Executor) (h2 : ExecHeap),
      ((e2.take_transaction h2).1 = Except.error SqlxError.poolClosed ↔
        h2.getD e2.addr none = none)) := by
  refine ⟨?_, ?_, ?_⟩
  · exact getD_append_length h (some tx)
  · show (takeSlot ((h ++ [some tx]).getD h.length none)).1 = Except.ok tx
    rw [getD_append_length h (some tx)]
    rfl
  · intro e2 h2
    cases hg : h2.getD e2.addr none with
    | none =>
      have hv : (e2.take_transaction h2).1 = Except.error SqlxError.poolClosed := by
        show (takeSlot (h2.getD e2.addr none)).1 = Except.error SqlxError.poolClosed
        rw [hg]
        rfl
      simp [hv, hg]
    | some t =>
      have hv : (e2.take_transaction h2).1 = Except.ok t := by
        show (takeSlot (h2.getD e2.addr none)).1 = Except.ok t
        rw [hg]
        rfl
      simp [hv, hg]

/-- Counterexample to C7 as stated: both failure causes can yield the
very same error value. When the underlying commit itself fails with
`sqlx::Error::PoolClosed`, a fresh session's `commit()` returns
`DatabaseError(PoolClosed)` — the exact value an already-consumed
session's `commit()` returns — so the caller cannot distinguish the two
causes. -/
theorem commit_error_causes_not_always_distinguishable :
    (Session.commit ⟨fun _ => Except.error SqlxError.poolClosed, fun _ => Except.ok ()⟩
        ⟨some 0, []⟩).2.1
      = (Session.commit ⟨fun _ => Except.error SqlxError.poolClosed, fun _ => Except.ok ()⟩
        ⟨none, []⟩).2.1 ∧
    (Session.commit ⟨fun _ => Except.error SqlxError.poolClosed, fun _ => Except.ok ()⟩
        ⟨some 0, []⟩).2.1
      = Except.error (TransactionError.DatabaseError SqlxError.poolClosed) :=
  ⟨rfl, rfl⟩

/-- C7 amended: a failed take always yields exactly
`DatabaseError(PoolClosed)`, and whenever the underlying database
failure is any error other than `PoolClosed`, the value returned for a
database rejection differs from the value returned for an
already-consumed transaction — the causes are distinguishable unless
the database itself fails with `PoolClosed`. -/
theorem error_causes_distinguishable_unless_poolClosed :
    (∀ (db : DB) (obs : List Observer),
      (Session.commit db ⟨none, obs⟩).2.1
        = Except.error (TransactionError.DatabaseError SqlxError.poolClosed)) ∧
    (∀ (db : DB) (obs : List Observer),
      (Session.rollback db ⟨none, obs⟩).2.1
        = Except.error (TransactionError.DatabaseError SqlxError.poolClosed)) ∧
    (∀ (db : DB) (s : Session) (tx : Nat) (e : SqlxError),
      s.slot = some tx → db.commitTx tx = Except.error e →
      e ≠ SqlxError.poolClosed →
      (Session.commit db s).2.1 = Except.error (TransactionError.DatabaseError e) ∧
      (Session.commit db s).2.1
        ≠ Except.error (TransactionError.DatabaseError SqlxError.poolClosed)) ∧
    (∀ (db : DB) (s : Session) (tx : Nat) (e : SqlxError),
      s.slot = some tx → db.rollbackTx tx = Except.error e →
      e ≠ SqlxError.poolClosed →
      (Session.rollback db s).2.1 = Except.error (TransactionError.DatabaseError e) ∧
      (Session.rollback db s).2.1
        ≠ Except.error (TransactionError.DatabaseError SqlxError.poolClosed)) := by
  refine ⟨?_, ?_, ?_, ?_⟩
  · intro db obs
    rw [commit_slot_none db ⟨none, obs⟩ rfl]
  · intro db obs
    rw [rollback_slot_none db ⟨none, obs⟩ rfl]
  · intro db s tx e hs hdb hne
    rw [commit_db_fail db s tx e hs hdb]
    exact ⟨rfl, by simpa using hne⟩
  · intro db s tx e hs hdb hne
    rw [rollback_db_fail db s tx e hs hdb]
    exact ⟨rfl, by simpa using hne⟩

/-- Witness for amended C7: a database-level rejection yields a value
different from the consumed-transaction value. -/
theorem error_causes_distinguishable_unless_poolClosed_witness :
    (Session.commit ⟨fun _ => Except.error (SqlxError.database "dup key"),
        fun _ => Except.ok ()⟩ ⟨some 0, []⟩).2.1
      = Except.error (TransactionError.DatabaseError (SqlxError.database "dup key")) ∧
    (Session.commit ⟨fun _ => Except.error (SqlxError.database "dup key"),
        fun _ => Except.ok ()⟩ ⟨some 0, []⟩).2.1
      ≠ Except.error (TransactionError.DatabaseError SqlxError.poolClosed) ∧
    (Session.commit ⟨fun _ => Except.error (SqlxError.database "dup key"),
        fun _ => Except.ok ()⟩ ⟨none, []⟩).2.1
      = Except.error (TransactionError.DatabaseError SqlxError.poolClosed) := by
  have h := error_causes_distinguishable_unless_poolClosed
  have h3 := h.2.2.1 ⟨fun _ => Except.error (SqlxError.database "dup key"),
    fun _ => Except.ok ()⟩ ⟨some 0, []⟩ 0 (SqlxError.database "dup key")
    rfl rfl (by intro hh; cases hh)
  exact ⟨h3.1, h3.2, h.1 _ []⟩

/-- Counterexample to C8 as stated: when the database rejects the
underlying commit, `commit()` returns `DatabaseError(...)` (the `?` on
`tx.commit()` converts via `#[from] sqlx::Error`), not the
`CommitFailed` variant; symmetrically rollback rejection yields
`DatabaseError(...)`, not `RollbackFailed`. -/
theorem db_reject_returns_DatabaseError_not_CommitFailed :
    (Session.commit ⟨fun _ => Except.error (SqlxError.database "x"), fun _ => Except.ok ()⟩
        ⟨some 0, []⟩).2.1
      = Except.error (TransactionError.DatabaseError (SqlxError.database "x")) ∧
    TransactionError.isCommitFailed
        (TransactionError.DatabaseError (SqlxError.database "x")) = false ∧
    (Session.rollback ⟨fun _ => Except.ok (), fun _ => Except.error (SqlxError.database "y")⟩
        ⟨some 0, []⟩).2.1
      = Except.error (TransactionError.DatabaseError (SqlxError.database "y")) ∧
    TransactionError.isRollbackFailed
        (TransactionError.DatabaseError (SqlxError.database "y")) = false :=
  ⟨rfl, rfl, rfl, rfl⟩

/-- C8 amended: when the database rejects the underlying commit,
`commit()` returns `DatabaseError` wrapping that `sqlx` error (never
`CommitFailed`), and when the database rejects the underlying rollback,
`rollback()` returns `DatabaseError` wrapping it (never
`RollbackFailed`): the library itself never constructs the
`CommitFailed`/`RollbackFailed` variants on these paths. -/
theorem db_reject_wrapped_as_DatabaseError (db : DB) (s : Session) (tx : Nat)
    (e : SqlxError) (hs : s.slot = some tx) :
    (db.commitTx tx = Except.error e →
      (Session.commit db s).2.1 = Except.error (TransactionError.DatabaseError e) ∧
      (∀ r, (Session.commit db s).2.1 = Except.error r →
        r.isCommitFailed = false ∧ r.isRollbackFailed = false)) ∧
    (db.rollbackTx tx = Except.error e →
      (Session.rollback db s).2.1 = Except.error (TransactionError.DatabaseError e) ∧
      (∀ r, (Session.rollback db s).2.1 = Except.error r →
        r.isCommitFailed = false ∧ r.isRollbackFailed = false)) := by
  constructor
  · intro hdb
    rw [commit_db_fail db s tx e hs hdb]
    refine ⟨rfl, ?_⟩
    intro r hr
    cases hr
    exact ⟨rfl, rfl⟩
  · intro hdb
    rw [rollback_db_fail db s tx e hs hdb]
    refine ⟨rfl, ?_⟩
    intro r hr
    cases hr
    exact ⟨rfl, rfl⟩

/-- Witness for amended C8 at a concrete rejecting database. -/
theorem db_reject_wrapped_as_DatabaseError_witness :
    (Session.commit ⟨fun _ => Except.error (SqlxError.database "x"),
        fun _ => Except.error (SqlxError.database "x")⟩ ⟨some 0, []⟩).2.1
      = Except.error (TransactionError.DatabaseError (SqlxError.database "x")) ∧
    (Session.rollback ⟨fun _ => Except.error (SqlxError.database "x"),
        fun _ => Except.error (SqlxError.database "x")⟩ ⟨some 0, []⟩).2.1
      = Except.error (TransactionError.DatabaseError (SqlxError.database "x")) := by
  have h := db_reject_wrapped_as_DatabaseError
    ⟨fun _ => Except.error (SqlxError.database "x"),
      fun _ => Except.error (SqlxError.database "x")⟩
    ⟨some 0, []⟩ 0 (SqlxError.database "x") rfl
  exact ⟨(h.1 rfl).1, (h.2 rfl).1⟩
